import Mathlib

/-!
Verification development for the web content extraction and QA service
(`main.py` / `scraper.py`).  The core logic is shallowly embedded:

* text is modelled as `List Char` (ASCII semantics for the `re` word
  classes and for Python's `str.lower` / `str.strip` / `str.isalnum`);
* the external scraper (`scrape_website`) and the external LLM
  (`ask_llama` / `complete`) are oracles passed in as functions;
* the durable store (one JSON file per agent id) is modelled at the
  JSON-value level: `json.dump` followed by `json.load` is the json
  library's round trip on JSON values and is treated as the identity,
  so a file system is a `List (String × Json)` association list;
* handlers that invoke the LLM are instrumented to also return the
  list of prompts actually sent, so that "the LLM was invoked" is a
  statement about the returned call list.
-/

/-- One heading+paragraphs block of a scraped page, as persisted by
`scrape_and_store` (`{"heading": text_or_null, "paragraphs": [...]}`). -/
structure ContentUnit where
  heading : Option String
  paragraphs : List String
deriving DecidableEq, Repr

/-- The stored result for one URL (`{"url": ..., "content": [...]}`). -/
structure PageContent where
  url : String
  content : List ContentUnit
deriving DecidableEq, Repr

/-- One entry of the parallel error list (`{"url": ..., "error": ...}`). -/
structure ScrapeErr where
  url : String
  error : String
deriving DecidableEq, Repr

/-- The persisted per-agent record
(`{"agent_name": ..., "urls": [...], "results": [...], "errors": [...]}`). -/
structure AgentRecord where
  agent_name : String
  urls : List String
  results : List PageContent
  errors : List ScrapeErr
deriving DecidableEq, Repr

/-! ## Tokenization (`find_relevant_content`, main.py lines 136-138) -/

/-- Python regex word character `\w` (ASCII): alphanumeric or underscore. -/
def isWordChar (c : Char) : Bool := c.isAlphanum || c = '_'

/-- Split a character list into the maximal runs of word characters;
this is `re.findall(r"\b\w+\b", s)` (every maximal `\w` run has word
boundaries at both ends). -/
def tokenizeAux : List Char → List Char → List (List Char)
  | [], acc => if acc.isEmpty then [] else [acc.reverse]
  | c :: cs, acc =>
    if isWordChar c then tokenizeAux cs (c :: acc)
    else if acc.isEmpty then tokenizeAux cs [] else acc.reverse :: tokenizeAux cs []

/-- All word tokens of a text, in order. -/
def wordTokens (s : List Char) : List (List Char) := tokenizeAux s []

/-- Python `str.isalnum`: nonempty and every character alphanumeric
(this drops tokens containing underscores). -/
def pyIsAlnum (w : List Char) : Bool := !w.isEmpty && w.all Char.isAlphanum

/-- Source: `query_tokens = [w.lower() for w in re.findall(r"\b\w+\b", query) if w.isalnum()]`. -/
def queryTokens (query : List Char) : List (List Char) :=
  ((wordTokens query).filter pyIsAlnum).map (fun w => w.map Char.toLower)

/-- The stop-word list of `find_relevant_content`, transcribed verbatim
(duplicates as in the source; Python wraps it in a `set`, which only
affects membership, not order of anything we prove). -/
def stopWords : List (List Char) :=
  ["a", "an", "the", "and", "or", "is", "are", "was", "were", "be", "been", "being",
   "have", "has", "had", "do", "does", "did", "can", "could", "will", "would",
   "shall", "should", "may", "might", "must", "it's", "don't", "i'm", "you're",
   "he's", "she's", "we're", "they're", "isn't", "aren't", "wasn't", "weren't",
   "haven't", "hasn't", "hadn't", "don't", "doesn't", "didn't", "can't", "couldn't",
   "won't", "wouldn't", "shan't", "shouldn't", "mayn't", "mightn't", "mustn't",
   "you", "i", "he", "she", "it", "we", "they", "this", "that", "these", "those",
   "my", "your", "his", "her", "its", "our", "their", "here", "there", "what",
   "where", "when", "why", "how", "who", "whom", "whose", "with", "without",
   "to", "from", "up", "down", "in", "out", "on", "off", "over", "under", "again",
   "further", "then", "once", "here", "there", "when", "where", "why", "how",
   "all", "any", "both", "each", "few", "many", "more", "most", "some", "such",
   "no", "nor", "not", "only", "own", "same", "so", "than", "too", "very", "s",
   "t", "m", "d", "ll", "re", "ve", "y"].map String.data

/-- Source: `meaningful_query_tokens = {token for token in query_tokens if token not in stop_words}`
(modelled as a filtered list; the Python set only deduplicates, which
does not change whether any token matches). -/
def meaningfulTokens (query : List Char) : List (List Char) :=
  (queryTokens query).filter (fun t => !stopWords.contains t)

/-! ## Whole-word search (`re.search(r'\b' + re.escape(token) + r'\b', text)`) -/

/-- Regex `\b` holds before the match: the preceding character (if any) is
not a word character.  (Tokens are nonempty and all-alphanumeric, so
both match edges are word characters.) -/
def boundaryBefore (pre : List Char) : Bool :=
  match pre.getLast? with
  | Option.none => true
  | Option.some c => !isWordChar c

/-- Regex `\b` holds after the match: the following character (if any) is
not a word character. -/
def boundaryAfter (post : List Char) : Bool :=
  match post.head? with
  | Option.none => true
  | Option.some c => !isWordChar c

/-- Executable whole-word search: some occurrence of `tok` in `text`
has non-word characters (or the text ends) on both sides. -/
def containsWholeWord (text tok : List Char) : Bool :=
  (List.range (text.length + 1)).any (fun i =>
    tok.isPrefixOf (text.drop i) && boundaryBefore (text.take i) &&
      boundaryAfter ((text.drop i).drop tok.length))

/-- Semantic whole-word occurrence: `text` decomposes around `tok`
with word boundaries on both sides. -/
def OccursWholeWord (tok text : List Char) : Prop :=
  ∃ pre post, text = pre ++ tok ++ post ∧
    boundaryBefore pre = true ∧ boundaryAfter post = true

/-! ## Page relevance (`find_relevant_content`, main.py lines 143-172) -/

/-- Source: `section.get('heading', '') or ""` on the typed record. -/
def headingStr (u : ContentUnit) : List Char := (u.heading.getD "").data

/-- Source: `page_text += f" {heading} " + " ".join(paragraphs)` over all sections. -/
def pageText (p : PageContent) : List Char :=
  p.content.foldl
    (fun acc u =>
      acc ++ (' ' :: headingStr u) ++ [' '] ++
        List.intercalate [' '] (u.paragraphs.map String.data))
    []

/-- Source: `page_text.lower()`. -/
def lowerText (p : PageContent) : List Char := (pageText p).map Char.toLower

/-- A page is relevant when some meaningful token occurs whole-word in
its lowercased blob. -/
def pageRelevant (tokens : List (List Char)) (p : PageContent) : Bool :=
  tokens.any (fun t => containsWholeWord (lowerText p) t)

/-- Function `find_relevant_content(content_array, query)`: the relevant pages in
input order, and whether some page matched a non-stop-word token (the
source sets `meaningful_match_found` exactly when some page became
relevant). -/
def find_relevant_content (content_array : List PageContent) (query : List Char) :
    List PageContent × Bool :=
  if content_array.isEmpty || (queryTokens query).isEmpty then ([], false)
  else
    let relevant := content_array.filter (pageRelevant (meaningfulTokens query))
    (relevant, !relevant.isEmpty)

/-! ## Answer quality gate (`ask_stored`, main.py lines 374-383) -/

/-- Python ASCII whitespace stripped by `str.strip()`. -/
def pyIsSpace (c : Char) : Bool :=
  c = ' ' || c = '\t' || c = '\n' || c = '\r' || c = '\x0b' || c = '\x0c'

/-- Python `str.strip()`: drop leading and trailing whitespace. -/
def pyStrip (s : List Char) : List Char :=
  ((s.dropWhile pyIsSpace).reverse.dropWhile pyIsSpace).reverse

/-- Python `pat in l` (substring containment). -/
def listContains : List Char → List Char → Bool
  | l, pat =>
    pat.isPrefixOf l ||
      (match l with
       | [] => false
       | _ :: t => listContains t pat)

/-- The fixed unhelpful-phrase list of `ask_stored`, transcribed verbatim. -/
def unhelpfulPhrases : List (List Char) :=
  ["sorry, i am unable", "cannot provide a helpful response",
   "no information available", "based on the text provided",
   "information is not available"].map String.data

/-- Source: `is_unhelpful = not ai_response or len(ai_response.strip()) < 15 or
any(phrase in ai_response.lower() for phrase in unhelpful_phrases)`;
`ai_response` is `None` on LLM failure, hence the `Option`. -/
def is_unhelpful (r : Option (List Char)) : Bool :=
  match r with
  | Option.none => true
  | Option.some s =>
    s.isEmpty || decide ((pyStrip s).length < 15) ||
      unhelpfulPhrases.any (fun p => listContains (s.map Char.toLower) p)

/-- The canonical caller-facing message for an unhelpful LLM answer. -/
def canonicalUnavailable : List Char :=
  "I cannot provide a helpful response based on the available information.".data

/-- The final step of `ask_stored` once the LLM has been invoked: an
unhelpful response is replaced by the canonical message, a helpful one
is passed through; `ai_used` is `True` in both branches. -/
def classifyResponse (r : Option (List Char)) : List Char × Bool :=
  if is_unhelpful r then (canonicalUnavailable, true) else (r.getD [], true)

/-- The unhelpful-classification condition, stated as the spec words it:
empty/null, or trimmed length under 15, or the lowercased text contains
one of the five fixed phrases (as a substring). -/
def UnhelpfulSpec (r : Option (List Char)) : Prop :=
  r = Option.none ∨ r = Option.some [] ∨
    ∃ s, r = Option.some s ∧
      ((pyStrip s).length < 15 ∨
        ∃ p ∈ unhelpfulPhrases, ∃ t u, s.map Char.toLower = t ++ p ++ u)

/-! ## Prompt assembly and the `ask_stored` pipeline (main.py lines 301-389) -/

/-- The result shape of `/ask_stored` (`ai_response`, `ai_used`). -/
structure AskResult where
  ai_response : List Char
  ai_used : Bool
deriving DecidableEq, Repr

/-- Message `"I cannot provide a helpful response (no content available)."` -/
def msgNoContent : List Char :=
  "I cannot provide a helpful response (no content available).".data

/-- Message `"I cannot provide a helpful response based on the stored content and your query."` -/
def msgNoMatch : List Char :=
  "I cannot provide a helpful response based on the stored content and your query.".data

/-- Message `"I cannot provide a helpful response due to an issue processing the stored content."` -/
def msgNoUsable : List Char :=
  "I cannot provide a helpful response due to an issue processing the stored content.".data

/-- The fixed instruction preamble of the stored-agent prompt, with the
user's query embedded once. -/
def promptPreamble (query : List Char) : List Char :=
  ("As a knowledgeable agent, please provide a direct and conversational answer " ++
   "to the user's question based *only* on the provided website content below.\n" ++
   "Do not mention that you are using the provided information.\n" ++
   "If the answer is not found in the text, state that you cannot provide a " ++
   "helpful response based on the available information.\nUser question: \"").data ++
  query ++ "\"\n\nWebsite content:\n".data

/-- One section's contribution to the prompt and whether it added text:
`Heading: {heading}\n` when the heading is truthy, the paragraphs
joined by newlines plus a newline when the list is truthy. -/
def unitPromptText (u : ContentUnit) : List Char × Bool :=
  ((if (headingStr u).isEmpty then [] else "Heading: ".data ++ headingStr u ++ ['\n']) ++
     (if u.paragraphs.isEmpty then []
      else List.intercalate ['\n'] (u.paragraphs.map String.data) ++ ['\n']),
   !(headingStr u).isEmpty || !u.paragraphs.isEmpty)

/-- One relevant page's delimited block and whether any of its sections
added text. -/
def pagePromptText (p : PageContent) : List Char × Bool :=
  let body := p.content.foldl
    (fun acc u => (acc.1 ++ (unitPromptText u).1, acc.2 || (unitPromptText u).2))
    ([], false)
  ("\n--- Content from ".data ++ p.url.data ++ " ---\n".data ++ body.1 ++
     "--- End of Content ---\n".data,
   body.2)

/-- The assembled prompt over all relevant pages together with the
`content_added` flag. -/
def buildPrompt (query : List Char) (objs : List PageContent) : List Char × Bool :=
  objs.foldl
    (fun acc p => (acc.1 ++ (pagePromptText p).1, acc.2 || (pagePromptText p).2))
    (promptPreamble query, false)

/-- Function `ask_stored` from the point where the relevant content objects are
known: assemble the prompt; if no text was added return the
no-usable-content response without calling the LLM, otherwise send the
prompt and classify the answer.  The second component records the
prompts actually sent to the LLM. -/
def askWithRelevant (query : List Char) (relevant : List PageContent)
    (llm : List Char → Option (List Char)) : AskResult × List (List Char) :=
  if !(buildPrompt query relevant).2 then (⟨msgNoUsable, false⟩, [])
  else
    (⟨(classifyResponse (llm (buildPrompt query relevant).1)).1,
      (classifyResponse (llm (buildPrompt query relevant).1)).2⟩,
     [(buildPrompt query relevant).1])

/-- The `/ask_stored` handler after input validation: `Except.error` is
the 404 "content not found" path; otherwise the gates of the source are
applied in order (no stored results, no relevant content or no
meaningful match, no usable text, LLM call). -/
def askStored (stored : Option AgentRecord) (query : List Char)
    (llm : List Char → Option (List Char)) :
    Except (List Char) AskResult × List (List Char) :=
  match stored with
  | Option.none => (Except.error ("Content not found for unique_code".data), [])
  | Option.some a =>
    if a.results.isEmpty then (Except.ok ⟨msgNoContent, false⟩, [])
    else if (find_relevant_content a.results query).1.isEmpty ||
        !(find_relevant_content a.results query).2 then
      (Except.ok ⟨msgNoMatch, false⟩, [])
    else
      (Except.ok (askWithRelevant query (find_relevant_content a.results query).1 llm).1,
       (askWithRelevant query (find_relevant_content a.results query).1 llm).2)

/-! ## Store creation and update (main.py lines 207-298 and 732-839) -/

/-- The `heading` field of a scraped section as `scrape_and_store` and
`update_agent` see it: absent/None, a plain string, or a dict whose
`text` entry is taken (a missing `text` key defaults to `""`). -/
inductive RawHeading where
  | null
  | txt (s : String)
  | node (text : String)
deriving DecidableEq, Repr

/-- One section of the scraper's `sections` list. -/
structure RawSection where
  heading : RawHeading
  paragraphs : List String
deriving DecidableEq, Repr

/-- The `data` field of a successful `scrape_website` result, as the
handlers case on it: a dict with a `sections` key, some other dict, a
string, or nothing. -/
inductive ScrapeData where
  | dictSections (secs : List RawSection)
  | dictOther
  | strData (s : String)
  | nullData
deriving DecidableEq, Repr

/-- Source: `heading_text = heading_data.get("text", "") if isinstance(heading_data, dict)
else heading_data` followed by `heading_text or None`. -/
def normalizeHeading : RawHeading → Option String
  | RawHeading.null => Option.none
  | RawHeading.txt s => if s = "" then Option.none else Option.some s
  | RawHeading.node t => if t = "" then Option.none else Option.some t

/-- A raw section as persisted: normalized heading, paragraphs unchanged. -/
def normalizeSection (s : RawSection) : ContentUnit :=
  ⟨normalizeHeading s.heading, s.paragraphs⟩

/-- Source: `page_data = {"url": url, "content": [...]}` for one scraped URL:
dict-with-sections data maps every section through `normalizeSection`
(nothing is filtered out); nonempty string data becomes one unit with a
null heading; anything else leaves the content empty. -/
def buildPageData (url : String) (d : ScrapeData) : PageContent :=
  match d with
  | ScrapeData.dictSections secs => ⟨url, secs.map normalizeSection⟩
  | ScrapeData.strData s => if s = "" then ⟨url, []⟩ else ⟨url, [⟨Option.none, [s]⟩]⟩
  | _ => ⟨url, []⟩

/-- The shared scraping loop: per-URL errors are collected in the error
list, successes are converted through `buildPageData`; both lists keep
the input order. -/
def scrapeUrls (scrape : String → Except String ScrapeData) (urls : List String) :
    List PageContent × List ScrapeErr :=
  urls.foldl
    (fun acc url =>
      match scrape url with
      | Except.error e => (acc.1, acc.2 ++ [⟨url, e⟩])
      | Except.ok d => (acc.1 ++ [buildPageData url d], acc.2))
    ([], [])

/-- Handler `/scrape_and_store` after input validation: scrape every requested
URL and persist `{agent_name, urls, results, errors}`. -/
def scrape_and_store (agent_name : String) (urls : List String)
    (scrape : String → Except String ScrapeData) : AgentRecord :=
  ⟨agent_name, urls, (scrapeUrls scrape urls).1, (scrapeUrls scrape urls).2⟩

/-- Handler `/update_agent` after input validation, given the loaded existing
record: scrape only the new URLs not already in the existing url set,
write back the original agent name, the url union, and the existing
results/errors with the new ones appended.  (Python stores the url
union as `list(set ∪ set)` in unspecified order; it is modelled as
`dedup` of the concatenation, and the theorems only use membership.)
The second component is the list of URLs passed to the scraper. -/
def update_agent (existing : AgentRecord) (new_urls : List String)
    (scrape : String → Except String ScrapeData) : AgentRecord × List String :=
  let urls_to_scrape := new_urls.filter (fun u => !existing.urls.contains u)
  let scraped := scrapeUrls scrape urls_to_scrape
  (⟨existing.agent_name, (existing.urls ++ new_urls).dedup,
    existing.results ++ scraped.1, existing.errors ++ scraped.2⟩,
   urls_to_scrape)

/-! ## The durable store as JSON values (main.py lines 87-107 and 266-292) -/

/-- JSON values (the store keeps one document per agent identifier). -/
inductive Json where
  | null
  | str (s : String)
  | arr (xs : List Json)
  | obj (fields : List (String × Json))

/-- Shape `{"heading": ..., "paragraphs": [...]}`. -/
def encodeUnit (u : ContentUnit) : Json :=
  Json.obj
    [("heading", match u.heading with
                 | Option.none => Json.null
                 | Option.some s => Json.str s),
     ("paragraphs", Json.arr (u.paragraphs.map Json.str))]

/-- Shape `{"url": ..., "content": [...]}`. -/
def encodePage (p : PageContent) : Json :=
  Json.obj [("url", Json.str p.url), ("content", Json.arr (p.content.map encodeUnit))]

/-- Shape `{"url": ..., "error": ...}`. -/
def encodeErr (e : ScrapeErr) : Json :=
  Json.obj [("url", Json.str e.url), ("error", Json.str e.error)]

/-- Source: `data_to_store = {"agent_name": ..., "urls": ..., "results": ..., "errors": ...}`. -/
def encodeRecord (r : AgentRecord) : Json :=
  Json.obj
    [("agent_name", Json.str r.agent_name),
     ("urls", Json.arr (r.urls.map Json.str)),
     ("results", Json.arr (r.results.map encodePage)),
     ("errors", Json.arr (r.errors.map encodeErr))]

/-- Parse each element, failing if any element fails. -/
def mapOption {α : Type} (f : Json → Option α) : List Json → Option (List α)
  | [] => Option.some []
  | x :: xs =>
    match f x, mapOption f xs with
    | Option.some a, Option.some as => Option.some (a :: as)
    | _, _ => Option.none

/-- A string field. -/
def decodeString : Json → Option String
  | Json.str s => Option.some s
  | _ => Option.none

/-- A heading field: null or a string. -/
def decodeHeading : Json → Option (Option String)
  | Json.null => Option.some Option.none
  | Json.str s => Option.some (Option.some s)
  | _ => Option.none

/-- Field lookup in a JSON object. -/
def jField (j : Json) (k : String) : Option Json :=
  match j with
  | Json.obj fs => fs.lookup k
  | _ => Option.none

/-- Parse one stored content unit. -/
def decodeUnit (j : Json) : Option ContentUnit :=
  match jField j "heading", jField j "paragraphs" with
  | Option.some h, Option.some (Json.arr ps) =>
    match decodeHeading h, mapOption decodeString ps with
    | Option.some h2, Option.some ps2 => Option.some ⟨h2, ps2⟩
    | _, _ => Option.none
  | _, _ => Option.none

/-- Parse one stored page. -/
def decodePage (j : Json) : Option PageContent :=
  match jField j "url", jField j "content" with
  | Option.some (Json.str u), Option.some (Json.arr cs) =>
    match mapOption decodeUnit cs with
    | Option.some cs2 => Option.some ⟨u, cs2⟩
    | Option.none => Option.none
  | _, _ => Option.none

/-- Parse one stored error entry. -/
def decodeErr (j : Json) : Option ScrapeErr :=
  match jField j "url", jField j "error" with
  | Option.some (Json.str u), Option.some (Json.str e) => Option.some ⟨u, e⟩
  | _, _ => Option.none

/-- Parse a stored agent record back into its typed shape. -/
def decodeRecord (j : Json) : Option AgentRecord :=
  match jField j "agent_name", jField j "urls", jField j "results", jField j "errors" with
  | Option.some (Json.str n), Option.some (Json.arr us), Option.some (Json.arr rs),
      Option.some (Json.arr es) =>
    match mapOption decodeString us, mapOption decodePage rs, mapOption decodeErr es with
    | Option.some us2, Option.some rs2, Option.some es2 =>
      Option.some ⟨n, us2, rs2, es2⟩
    | _, _, _ => Option.none
  | _, _, _, _ => Option.none

/-- Operation `create`: serialize the record under the generated identifier (the
file write; a later write under the same name shadows the earlier one). -/
def createRecord (fs : List (String × Json)) (id : String) (r : AgentRecord) :
    List (String × Json) :=
  (id, encodeRecord r) :: fs

/-- Operation `read`: `get_stored_content` parses the stored document, and the
record shape is extracted as the handlers do. -/
def readRecord (fs : List (String × Json)) (id : String) : Option AgentRecord :=
  (fs.lookup id).bind decodeRecord

/-! ## Concrete fixtures used by witnesses and counterexamples -/

/-- A stored agent whose single page mentions refunds. -/
def refundAgent : AgentRecord :=
  ⟨"Acme", ["https://a.example/x"],
   [⟨"https://a.example/x",
     [⟨Option.some "Refunds", ["Refunds are processed within 30 days."]⟩]⟩],
   []⟩

/-- A stored agent with one already-scraped URL. -/
def tinyAgent : AgentRecord :=
  ⟨"t", ["https://a.example/x"], [⟨"https://a.example/x", []⟩], []⟩

/-! ## Basic lemmas about the search primitives -/

theorem isPrefixOf_iff_exists :
    ∀ (p l : List Char), p.isPrefixOf l = true ↔ ∃ t, l = p ++ t := by
  intro p
  induction p with
  | nil =>
    intro l
    simp [List.isPrefixOf]
  | cons a as ih =>
    intro l
    cases l with
    | nil =>
      simp [List.isPrefixOf]
    | cons b bs =>
      simp only [List.isPrefixOf, Bool.and_eq_true, beq_iff_eq, ih bs]
      constructor
      · rintro ⟨rfl, t, rfl⟩
        exact ⟨t, rfl⟩
      · rintro ⟨t, ht⟩
        rw [List.cons_append] at ht
        cases ht
        exact ⟨rfl, t, rfl⟩

theorem containsWholeWord_iff (text tok : List Char) :
    containsWholeWord text tok = true ↔ OccursWholeWord tok text := by
  unfold containsWholeWord OccursWholeWord
  rw [List.any_eq_true]
  constructor
  · rintro ⟨i, _, hcond⟩
    rw [Bool.and_eq_true, Bool.and_eq_true] at hcond
    obtain ⟨⟨hpref, hbefore⟩, hafter⟩ := hcond
    obtain ⟨t, ht⟩ := (isPrefixOf_iff_exists tok (text.drop i)).mp hpref
    refine ⟨text.take i, t, ?_, hbefore, ?_⟩
    · conv_lhs => rw [← List.take_append_drop i text]
      rw [ht, List.append_assoc]
    · rw [ht, List.drop_left] at hafter
      exact hafter
  · rintro ⟨pre, post, htext, hbefore, hafter⟩
    subst htext
    refine ⟨pre.length, ?_, ?_⟩
    · rw [List.mem_range]
      simp [List.length_append]
      omega
    · rw [List.append_assoc, Bool.and_eq_true, Bool.and_eq_true, List.drop_left,
        List.take_left]
      refine ⟨⟨?_, hbefore⟩, ?_⟩
      · exact (isPrefixOf_iff_exists tok (tok ++ post)).mpr ⟨post, rfl⟩
      · rw [List.drop_left]
        exact hafter


theorem listContains_iff :
    ∀ (l pat : List Char), listContains l pat = true ↔ ∃ t u, l = t ++ pat ++ u := by
  intro l
  induction l with
  | nil =>
    intro pat
    rw [listContains]
    simp only [Bool.or_eq_true, isPrefixOf_iff_exists]
    constructor
    · rintro (⟨t, ht⟩ | h)
      · exact ⟨[], t, ht⟩
      · cases h
    · rintro ⟨t, u, htu⟩
      rcases List.append_eq_nil.mp (List.append_eq_nil.mp htu.symm).1 with ⟨rfl, rfl⟩
      exact Or.inl ⟨u, htu⟩
  | cons a as ih =>
    intro pat
    rw [listContains]
    simp only [Bool.or_eq_true, isPrefixOf_iff_exists, ih]
    constructor
    · rintro (⟨t, ht⟩ | ⟨t, u, htu⟩)
      · exact ⟨[], t, ht⟩
      · exact ⟨a :: t, u, by rw [htu]; simp⟩
    · rintro ⟨t, u, htu⟩
      cases t with
      | nil => exact Or.inl ⟨u, by simpa using htu⟩
      | cons b bs =>
        rw [List.cons_append, List.cons_append] at htu
        cases htu
        exact Or.inr ⟨bs, u, by simp⟩


/-! ## Helper lemmas -/

theorem classifyResponse_snd (r : Option (List Char)) :
    (classifyResponse r).2 = true := by
  rw [classifyResponse]
  split <;> rfl

theorem askWithRelevant_flag (query : List Char) (relevant : List PageContent)
    (llm : List Char → Option (List Char)) :
    ((askWithRelevant query relevant llm).1.ai_used = true ↔
      (askWithRelevant query relevant llm).2 ≠ []) := by
  rw [askWithRelevant]
  split
  · simp
  · simp [classifyResponse_snd]

theorem foldl_snd_of_false {α : Type} (f : α → List Char × Bool) :
    ∀ (l : List α), (∀ x ∈ l, (f x).2 = false) →
      ∀ acc : List Char × Bool,
        (l.foldl (fun a x => (a.1 ++ (f x).1, a.2 || (f x).2)) acc).2 = acc.2 := by
  intro l
  induction l with
  | nil => intro _ acc; rfl
  | cons x xs ih =>
    intro h acc
    rw [List.foldl_cons, ih (fun y hy => h y (List.mem_cons_of_mem x hy))]
    show (acc.2 || (f x).2) = acc.2
    rw [h x (List.mem_cons_self x xs), Bool.or_false]

theorem pagePromptText_flag (p : PageContent)
    (h : ∀ u ∈ p.content, headingStr u = [] ∧ u.paragraphs = []) :
    (pagePromptText p).2 = false := by
  rw [pagePromptText]
  show (p.content.foldl
    (fun a u => (a.1 ++ (unitPromptText u).1, a.2 || (unitPromptText u).2))
    ([], false)).2 = false
  rw [foldl_snd_of_false unitPromptText p.content ?_ ([], false)]
  intro u hu
  rw [unitPromptText]
  show (!(headingStr u).isEmpty || !u.paragraphs.isEmpty) = false
  rw [(h u hu).1, (h u hu).2]
  rfl

theorem buildPrompt_flag (query : List Char) (objs : List PageContent)
    (h : ∀ p ∈ objs, ∀ u ∈ p.content, headingStr u = [] ∧ u.paragraphs = []) :
    (buildPrompt query objs).2 = false := by
  rw [buildPrompt]
  rw [foldl_snd_of_false pagePromptText objs
    (fun p hp => pagePromptText_flag p (h p hp)) (promptPreamble query, false)]

theorem foldl_append_map {α β : Type} (g : α → β) :
    ∀ (l : List α) (acc : List β × List ScrapeErr),
      l.foldl (fun a x => (a.1 ++ [g x], a.2)) acc = (acc.1 ++ l.map g, acc.2) := by
  intro l
  induction l with
  | nil => intro acc; simp
  | cons x xs ih =>
    intro acc
    rw [List.foldl_cons, ih]
    simp

theorem scrapeUrls_all_ok (f : String → ScrapeData) (urls : List String) :
    scrapeUrls (fun u => Except.ok (f u)) urls =
      (urls.map (fun u => buildPageData u (f u)), []) := by
  rw [scrapeUrls]
  show urls.foldl
    (fun a url => (a.1 ++ [buildPageData url (f url)], a.2)) ([], []) = _
  rw [foldl_append_map (fun u => buildPageData u (f u)) urls ([], [])]
  rfl

theorem mapOption_encode {α : Type} (f : α → Json) (g : Json → Option α)
    (h : ∀ a, g (f a) = Option.some a) :
    ∀ l : List α, mapOption g (l.map f) = Option.some l := by
  intro l
  induction l with
  | nil => rfl
  | cons x xs ih => simp [mapOption, h, ih]

theorem decodeUnit_encodeUnit (u : ContentUnit) :
    decodeUnit (encodeUnit u) = Option.some u := by
  cases u with
  | mk hh ps =>
    cases hh <;>
      simp [encodeUnit, decodeUnit, jField, decodeHeading, List.lookup,
        mapOption_encode Json.str decodeString (fun a => rfl)]

theorem decodePage_encodePage (p : PageContent) :
    decodePage (encodePage p) = Option.some p := by
  cases p with
  | mk u cs =>
    simp [encodePage, decodePage, jField, List.lookup,
      mapOption_encode encodeUnit decodeUnit decodeUnit_encodeUnit]

theorem decodeErr_encodeErr (e : ScrapeErr) :
    decodeErr (encodeErr e) = Option.some e := by
  cases e with
  | mk u m => simp [encodeErr, decodeErr, jField, List.lookup]

theorem decodeRecord_encodeRecord (r : AgentRecord) :
    decodeRecord (encodeRecord r) = Option.some r := by
  cases r with
  | mk n us rs es =>
    simp [encodeRecord, decodeRecord, jField, List.lookup,
      mapOption_encode Json.str decodeString (fun a => rfl),
      mapOption_encode encodePage decodePage decodePage_encodePage,
      mapOption_encode encodeErr decodeErr decodeErr_encodeErr]

theorem contains_eq_false_iff (l : List String) (u : String) :
    l.contains u = false ↔ u ∉ l := by
  simp

/-! ## Claim theorems -/

/-- C2: for every content collection and every query whose word-token
list is empty or whose meaningful (non-stop-word) token set is empty,
`find_relevant_content` returns `([], false)` regardless of the
content; likewise for every query when the content collection is
empty. -/
theorem C2_stop_word_gate :
    ∀ (content_array : List PageContent) (query : List Char),
      (queryTokens query = [] ∨ meaningfulTokens query = [] ∨ content_array = []) →
      find_relevant_content content_array query = ([], false) := by
  intro ca q h
  rcases h with h | h | h
  · rw [find_relevant_content, if_pos]
    rw [h]
    simp
  · rw [find_relevant_content]
    split
    · rfl
    · rw [h]
      simp [pageRelevant]
  · rw [h, find_relevant_content, if_pos]
    rfl

/-- Witness for C2: a one-page collection and the stop-word-only query
`"the is"` yield `([], false)`. -/
theorem C2_stop_word_gate_witness :
    find_relevant_content
      [⟨"u", [⟨Option.some "Hello", ["world of things"]⟩]⟩] ("the is".data) =
      ([], false) :=
  C2_stop_word_gate _ _ (Or.inr (Or.inl (by decide)))

/-- C3: a page is marked relevant exactly when some meaningful token
occurs in its lowercased text blob as a whole word (word boundaries on
both sides, never as a proper substring of a longer word); in
particular the query `"art"` does not mark a page whose only text is
`"party"` as relevant. -/
theorem C3_whole_word_matching :
    (∀ (tokens : List (List Char)) (p : PageContent),
        pageRelevant tokens p = true ↔
          ∃ t ∈ tokens, OccursWholeWord t (lowerText p)) ∧
    find_relevant_content [⟨"u", [⟨Option.none, ["party"]⟩]⟩] ("art".data) =
      ([], false) := by
  constructor
  · intro tokens p
    rw [pageRelevant, List.any_eq_true]
    constructor
    · rintro ⟨t, ht, hc⟩
      exact ⟨t, ht, (containsWholeWord_iff (lowerText p) t).mp hc⟩
    · rintro ⟨t, ht, ho⟩
      exact ⟨t, ht, (containsWholeWord_iff (lowerText p) t).mpr ho⟩
  · decide

/-- Witness for C3: `"cat"` occurs whole-word in `" a cat sat"`, so the
page is relevant via the characterization. -/
theorem C3_whole_word_matching_witness :
    ∃ t ∈ [("cat".data)],
      OccursWholeWord t (lowerText ⟨"u", [⟨Option.none, ["a cat sat"]⟩]⟩) :=
  (C3_whole_word_matching.1 [("cat".data)]
    ⟨"u", [⟨Option.none, ["a cat sat"]⟩]⟩).mp (by decide)

/-- C10: the update operation writes back the original agent name
loaded from the existing record; since the persisted record has
exactly the fields `agent_name`, `urls`, `results`, `errors`, only the
latter three can differ between the record before and after the
update. -/
theorem C10_update_preserves_agent_name :
    ∀ (existing : AgentRecord) (new_urls : List String)
      (scrape : String → Except String ScrapeData),
      (update_agent existing new_urls scrape).1.agent_name = existing.agent_name :=
  fun _ _ _ => rfl

/-- C1: `update_agent` scrapes only the new URLs not already in the
existing record's url set; the persisted merged record has urls equal
(as a set) to the union of existing and new urls, results equal to the
existing results with the newly scraped results appended, and errors
equal to the existing errors with the new scrape errors appended; when
every new URL is already present, nothing is scraped and the results
are unchanged. -/
theorem C1_update_merge :
    ∀ (existing : AgentRecord) (new_urls : List String)
      (scrape : String → Except String ScrapeData),
      (∀ u ∈ (update_agent existing new_urls scrape).2,
          u ∈ new_urls ∧ u ∉ existing.urls) ∧
      (∀ u, u ∈ (update_agent existing new_urls scrape).1.urls ↔
          u ∈ existing.urls ∨ u ∈ new_urls) ∧
      (update_agent existing new_urls scrape).1.results =
        existing.results ++
          (scrapeUrls scrape
            (new_urls.filter (fun u => !existing.urls.contains u))).1 ∧
      (update_agent existing new_urls scrape).1.errors =
        existing.errors ++
          (scrapeUrls scrape
            (new_urls.filter (fun u => !existing.urls.contains u))).2 ∧
      ((∀ u ∈ new_urls, u ∈ existing.urls) →
        (update_agent existing new_urls scrape).2 = [] ∧
        (update_agent existing new_urls scrape).1.results = existing.results) := by
  intro ex new scrape
  refine ⟨?_, ?_, rfl, rfl, ?_⟩
  · intro u hu
    rw [show (update_agent ex new scrape).2 =
        new.filter (fun u => !ex.urls.contains u) from rfl, List.mem_filter] at hu
    refine ⟨hu.1, ?_⟩
    have h2 := hu.2
    rw [Bool.not_eq_true'] at h2
    exact (contains_eq_false_iff ex.urls u).mp h2
  · intro u
    show u ∈ (ex.urls ++ new).dedup ↔ _
    rw [List.mem_dedup, List.mem_append]
  · intro hsub
    have hfil : new.filter (fun u => !ex.urls.contains u) = [] := by
      rw [List.filter_eq_nil_iff]
      intro u hu
      rw [Bool.not_eq_true', contains_eq_false_iff]
      exact fun hc => hc (hsub u hu)
    constructor
    · show new.filter (fun u => !ex.urls.contains u) = []
      exact hfil
    · show ex.results ++
        (scrapeUrls scrape (new.filter (fun u => !ex.urls.contains u))).1 = ex.results
      rw [hfil]
      show ex.results ++ [] = ex.results
      rw [List.append_nil]

/-- Witness for C1: updating with a URL already stored scrapes nothing
and leaves the results unchanged. -/
theorem C1_update_merge_witness :
    (update_agent tinyAgent ["https://a.example/x"] (fun _ => Except.error "e")).2 = [] ∧
    (update_agent tinyAgent ["https://a.example/x"]
        (fun _ => Except.error "e")).1.results = tinyAgent.results :=
  (C1_update_merge tinyAgent ["https://a.example/x"]
    (fun _ => Except.error "e")).2.2.2.2 (by decide)

/-- C5: in `ask_stored`, `ai_used` is true exactly when a prompt was
actually sent to the LLM: every successful response carries
`ai_used = true` iff the list of prompts sent to the LLM is nonempty. -/
theorem C5_ai_used_iff_llm_called :
    ∀ (stored : Option AgentRecord) (query : List Char)
      (llm : List Char → Option (List Char)) (r : AskResult)
      (calls : List (List Char)),
      askStored stored query llm = (Except.ok r, calls) →
      (r.ai_used = true ↔ calls ≠ []) := by
  intro stored q llm r calls h
  cases stored with
  | none => simp [askStored] at h
  | some a =>
    rw [askStored] at h
    split at h
    · rw [Prod.mk.injEq] at h
      cases Except.ok.inj h.1
      cases h.2
      simp
    · split at h
      · rw [Prod.mk.injEq] at h
        cases Except.ok.inj h.1
        cases h.2
        simp
      · rw [Prod.mk.injEq] at h
        cases Except.ok.inj h.1
        cases h.2
        exact askWithRelevant_flag q (find_relevant_content a.results q).1 llm

/-- Witness for C5: a query with no match in the stored content leaves
`ai_used = false` and no prompt sent. -/
theorem C5_ai_used_iff_llm_called_witness :
    ((AskResult.mk msgNoMatch false).ai_used = true ↔
      ([] : List (List Char)) ≠ []) :=
  C5_ai_used_iff_llm_called (Option.some refundAgent) ("zzzz".data)
    (fun _ => Option.none) ⟨msgNoMatch, false⟩ [] (by rfl)

/-- C9: when every relevant content unit contributes no text (heading
empty or null and paragraphs empty), the assembly stage of
`ask_stored` is a hard failure: the LLM is not called (no prompts
sent) and the caller receives the no-usable-content response with
`ai_used = false`. -/
theorem C9_no_usable_content :
    ∀ (query : List Char) (relevant : List PageContent)
      (llm : List Char → Option (List Char)),
      (∀ p ∈ relevant, ∀ u ∈ p.content, headingStr u = [] ∧ u.paragraphs = []) →
      askWithRelevant query relevant llm = (⟨msgNoUsable, false⟩, []) := by
  intro q rel llm h
  rw [askWithRelevant, if_pos]
  rw [buildPrompt_flag q rel h]
  rfl

/-- Witness for C9: one relevant page whose only unit has a null
heading and no paragraphs yields the no-usable-content result with the
LLM never called. -/
theorem C9_no_usable_content_witness :
    askWithRelevant ("refund".data) [⟨"u", [⟨Option.none, []⟩]⟩]
      (fun _ => Option.some ("a long substantive answer about refunds".data)) =
      (⟨msgNoUsable, false⟩, []) :=
  C9_no_usable_content ("refund".data) [⟨"u", [⟨Option.none, []⟩]⟩]
    (fun _ => Option.some ("a long substantive answer about refunds".data))
    (by decide)

/-- C4: the quality gate classifies a response as unhelpful exactly
when it is null, or empty, or of trimmed length under 15, or its
lowercased text contains one of the five fixed phrases; consequently a
response of trimmed length exactly 14 is always unhelpful, and one of
trimmed length exactly 15 containing none of the phrases is helpful
and passed through to the caller unchanged. -/
theorem C4_quality_gate :
    (∀ r, is_unhelpful r = true ↔ UnhelpfulSpec r) ∧
    (∀ s : List Char, (pyStrip s).length = 14 →
      is_unhelpful (Option.some s) = true) ∧
    (∀ s : List Char, (pyStrip s).length = 15 →
      (∀ p ∈ unhelpfulPhrases, listContains (s.map Char.toLower) p = false) →
      is_unhelpful (Option.some s) = false ∧
      classifyResponse (Option.some s) = (s, true)) := by
  refine ⟨?_, ?_, ?_⟩
  · intro r
    cases r with
    | none => simp [is_unhelpful, UnhelpfulSpec]
    | some s =>
      simp [is_unhelpful, UnhelpfulSpec, listContains_iff, List.isEmpty_iff]
      tauto
  · intro s h
    simp [is_unhelpful, h]
  · intro s h hp
    have hne : s.isEmpty = false := by
      cases s with
      | nil => simp [pyStrip] at h
      | cons c cs => rfl
    have hlt : decide ((pyStrip s).length < 15) = false := by
      rw [h]
      rfl
    have hany : unhelpfulPhrases.any
        (fun p => listContains (s.map Char.toLower) p) = false := by
      rw [List.any_eq_false]
      intro p hpmem
      rw [hp p hpmem]
      simp
    have hout : is_unhelpful (Option.some s) = false := by
      simp [is_unhelpful, hne, hlt, hany]
    exact ⟨hout, by simp [classifyResponse, hout]⟩

/-- Witness for C4: a trimmed-length-14 response is unhelpful; a
trimmed-length-15 phrase-free response is helpful and passed through. -/
theorem C4_quality_gate_witness :
    is_unhelpful (Option.some ("abcdefghijklmn".data)) = true ∧
    is_unhelpful (Option.some ("abcdefghijklmno".data)) = false ∧
    classifyResponse (Option.some ("abcdefghijklmno".data)) =
      ("abcdefghijklmno".data, true) :=
  ⟨C4_quality_gate.2.1 _ (by decide),
   (C4_quality_gate.2.2 _ (by decide) (by decide)).1,
   (C4_quality_gate.2.2 _ (by decide) (by decide)).2⟩

/-- C6 counterexample: `scrape_and_store` persists a `ContentUnit`
with `heading = null` and `paragraphs = []` when the scrape data's
sections contain such a section — empty units are not dropped before
the record is written. -/
theorem C6_empty_unit_persisted_counterexample :
    ((scrape_and_store "a" ["u"]
        (fun _ => Except.ok (ScrapeData.dictSections
          [⟨RawHeading.null, []⟩]))).results.any
      (fun p => p.content.any
        (fun u => u.heading == Option.none && u.paragraphs.isEmpty))) = true := by
  decide

/-- C6 amended: the store-creation operation performs no filtering at
all: every section of dict-with-sections scrape data is persisted as
one `ContentUnit` (heading normalized, paragraphs unchanged),
including units with `heading = null` and `paragraphs = []`. -/
theorem C6_every_section_persisted :
    ∀ (name : String) (urls : List String) (secsOf : String → List RawSection),
      (scrape_and_store name urls
          (fun u => Except.ok (ScrapeData.dictSections (secsOf u)))).results =
        urls.map (fun u => ⟨u, (secsOf u).map normalizeSection⟩) := by
  intro name urls secsOf
  show (scrapeUrls (fun u => Except.ok (ScrapeData.dictSections (secsOf u))) urls).1 = _
  rw [scrapeUrls_all_ok (fun u => ScrapeData.dictSections (secsOf u)) urls]
  rfl

/-- C7 counterexample: a null LLM result is merged into the
unhelpful-response classification: `is_unhelpful` is true on `none`,
and `ask_stored` with an LLM that fails (returns null) produces
exactly the same outcome as one that returns an unhelpful answer — no
distinct provider-failure outcome is surfaced. -/
theorem C7_null_counterexample :
    is_unhelpful Option.none = true ∧
    askStored (Option.some refundAgent) ("refunds".data) (fun _ => Option.none) =
      askStored (Option.some refundAgent) ("refunds".data)
        (fun _ => Option.some ("no".data)) := by
  exact ⟨rfl, rfl⟩

/-- C7 amended: `ask_llama` returns null on provider failure, but
`ask_stored` folds that null into the unhelpful classification:
whenever the LLM was called and returned null, the caller receives the
canonical unhelpful message with `ai_used = true`, indistinguishable
from an unhelpful answer. -/
theorem C7_null_merged_into_unhelpful :
    is_unhelpful Option.none = true ∧
    ∀ (stored : Option AgentRecord) (query : List Char) (r : AskResult)
      (calls : List (List Char)),
      askStored stored query (fun _ => Option.none) = (Except.ok r, calls) →
      calls ≠ [] →
      r = ⟨canonicalUnavailable, true⟩ := by
  refine ⟨rfl, ?_⟩
  intro stored q r calls h hc
  cases stored with
  | none => simp [askStored] at h
  | some a =>
    rw [askStored] at h
    split at h
    · rw [Prod.mk.injEq] at h
      cases h.2
      exact absurd rfl hc
    · split at h
      · rw [Prod.mk.injEq] at h
        cases h.2
        exact absurd rfl hc
      · rw [Prod.mk.injEq] at h
        cases Except.ok.inj h.1
        cases h.2
        by_cases hb : (buildPrompt q (find_relevant_content a.results q).1).2 = true
        · rw [askWithRelevant, if_neg (by rw [hb]; simp)]
          rfl
        · rw [Bool.not_eq_true] at hb
          refine absurd ?_ hc
          show (askWithRelevant q (find_relevant_content a.results q).1
            (fun _ => Option.none)).2 = []
          rw [askWithRelevant, if_pos (by rw [hb]; rfl)]

/-- Witness for C7's amended theorem, instantiated on the refund agent
with a failing LLM. -/
theorem C7_null_merged_into_unhelpful_witness :
    AskResult.mk canonicalUnavailable true = AskResult.mk canonicalUnavailable true :=
  C7_null_merged_into_unhelpful.2 (Option.some refundAgent) ("refunds".data)
    ⟨canonicalUnavailable, true⟩
    [(buildPrompt ("refunds".data) refundAgent.results).1]
    (by rfl) (by simp)

/-- C8: creating a record under a generated identifier and reading it
back returns an `AgentRecord` equal to the stored input, for every
prior store state and every identifier (the JSON value serialize-then-
parse round trip). -/
theorem C8_create_read_round_trip :
    ∀ (fs : List (String × Json)) (id : String) (r : AgentRecord),
      readRecord (createRecord fs id r) id = Option.some r := by
  intro fs id r
  rw [readRecord, createRecord]
  rw [show List.lookup id ((id, encodeRecord r) :: fs) =
      Option.some (encodeRecord r) from by simp [List.lookup]]
  show decodeRecord (encodeRecord r) = Option.some r
  exact decodeRecord_encodeRecord r
